import Mathlib

/-!
A shallow embedding of `src/nvidia-mon.py` (a GPU idle monitor with an
auto-suspend policy) and proofs about it.

Modelling conventions:
* Times of day (`datetime.time`) are represented as seconds since midnight
  (a `Nat` below `dayLen = 86400`); `time(h, m)` becomes `3600*h + 60*m`.
  Python compares `time` values lexicographically on (hour, minute, second,
  microsecond), which agrees with comparison of seconds-since-midnight.
* Full timestamps (`datetime.datetime`) are represented as seconds since an
  arbitrary midnight epoch (a `Nat`); `d.time()` becomes `d % dayLen`.
* `timedelta(seconds=s)` is the `Nat` `s`.
* The pending-shutdown value threaded through the loop (`planned_shut` /
  `will_shut`) is `Option Nat`: `none` is Python's `None`, `some t` a
  planned datetime.
* Side effects are made visible in return values: `check_shutdown` returns,
  next to the value the Python function returns, the number of times it
  called `do_shutdown()`.
-/

/-- The day length in seconds: `datetime.time` values stay below this. -/
def dayLen : Nat := 86400

/-- The dict built by `parse_args` from a `--shutdown` spec
(`shut_args['start']`, `shut_args['end']`, `shut_args['idle_duration']`,
`shut_args['idle_percent']`): window start and end as seconds since
midnight, idle duration in seconds, idle threshold in percent. -/
structure ShutArgs where
  start : Nat
  «end» : Nat
  idle_duration : Nat
  idle_percent : Nat
deriving DecidableEq

/-- Embedding of `check_shutdown(shut_args, gpu_usage, planned_shut, log)`
(src/nvidia-mon.py lines 105-140).  `dt.now()` is passed in as the extra
argument `now_full`; `now` is its time-of-day part.  The result pairs the
Python return value (the new `planned_shut`) with the number of
`do_shutdown()` calls made.  Note that the final branch (line 139-140) logs,
calls `do_shutdown()` and then falls off the end of the function, so Python
returns `None` there. -/
def check_shutdown (shut_args : ShutArgs) (gpu_usage : Nat)
    (planned_shut : Option Nat) (now_full : Nat) : Option Nat × Nat :=
  if gpu_usage > shut_args.idle_percent then
    (none, 0)
  else
    let now := now_full % dayLen
    if shut_args.start < shut_args.«end» ∧
        ¬ (shut_args.start < now ∧ now < shut_args.«end») then
      (none, 0)
    else if shut_args.start > shut_args.«end» ∧
        (now < shut_args.start ∧ now > shut_args.«end») then
      (none, 0)
    else
      match planned_shut with
      | none => (some (now_full + shut_args.idle_duration), 0)
      | some planned =>
        if now_full < planned then
          (some planned, 0)
        else
          (none, 1)

/-- A time of day `now` is inside the configured window exactly when neither
of `check_shutdown`'s two outside-window early returns (lines 115-126)
applies. -/
def insideWindow (shut_args : ShutArgs) (now : Nat) : Prop :=
  ¬ (shut_args.start < shut_args.«end» ∧
      ¬ (shut_args.start < now ∧ now < shut_args.«end»)) ∧
  ¬ (shut_args.start > shut_args.«end» ∧
      (now < shut_args.start ∧ now > shut_args.«end»))

instance (a : ShutArgs) (now : Nat) : Decidable (insideWindow a now) := by
  unfold insideWindow; infer_instance

/-- C1: with a pending shutdown whose planned time has been reached, usage at
or below the threshold and the current time of day inside the window,
`check_shutdown` calls `do_shutdown()` exactly once. -/
theorem c1_fire_exactly_once (a : ShutArgs) (usage p now_full : Nat)
    (hu : usage ≤ a.idle_percent)
    (hin : insideWindow a (now_full % dayLen))
    (hp : p ≤ now_full) :
    (check_shutdown a usage (some p) now_full).2 = 1 := by
  obtain ⟨h1, h2⟩ := hin
  unfold check_shutdown
  rw [if_neg (by omega), if_neg h1, if_neg h2]
  have hnp : ¬ now_full < p := by omega
  simp [hnp]

theorem c1_fire_exactly_once_witness :
    5 ≤ 10 ∧ insideWindow ⟨5400, 32400, 1800, 10⟩ (7300 % dayLen) ∧
      7200 ≤ 7300 ∧
      (check_shutdown ⟨5400, 32400, 1800, 10⟩ 5 (some 7200) 7300).2 = 1 :=
  ⟨by decide, by decide, by decide,
    c1_fire_exactly_once ⟨5400, 32400, 1800, 10⟩ 5 7200 7300
      (by decide) (by decide) (by decide)⟩

/-- C3: whenever the GPU usage is strictly above the idle threshold,
`check_shutdown` returns `None` (Inactive) and performs no shutdown action,
whatever the prior state and the time. -/
theorem c3_busy_resets (a : ShutArgs) (usage : Nat)
    (planned_shut : Option Nat) (now_full : Nat)
    (hu : usage > a.idle_percent) :
    check_shutdown a usage planned_shut now_full = (none, 0) := by
  unfold check_shutdown
  rw [if_pos hu]

theorem c3_busy_resets_witness :
    (50 : Nat) > 10 ∧
      check_shutdown ⟨5400, 32400, 1800, 10⟩ 50 (some 7200) 7300 = (none, 0) :=
  ⟨by decide,
    c3_busy_resets ⟨5400, 32400, 1800, 10⟩ 50 (some 7200) 7300 (by decide)⟩

/-- A call of `check_shutdown` starting from the Inactive state (`None`)
never calls `do_shutdown()`: every branch reachable with
`planned_shut = None` either returns `None` or arms a fresh pending time. -/
theorem check_shutdown_none_no_action (a : ShutArgs) (usage now_full : Nat) :
    (check_shutdown a usage none now_full).2 = 0 := by
  unfold check_shutdown
  by_cases hb : usage > a.idle_percent
  · rw [if_pos hb]
  · rw [if_neg hb]
    by_cases h1 : a.start < a.«end» ∧
        ¬ (a.start < now_full % dayLen ∧ now_full % dayLen < a.«end»)
    · rw [if_pos h1]
    · rw [if_neg h1]
      by_cases h2 : a.start > a.«end» ∧
          (now_full % dayLen < a.start ∧ now_full % dayLen > a.«end»)
      · rw [if_pos h2]
      · rw [if_neg h2]

/-- C2 counterexample: in the firing situation (Pending 7200 at time 7300,
usage 5 ≤ threshold 10, 7300 inside the 5400-32400 window) the state
returned by `check_shutdown` is NOT the old `Pending` time: the function
falls off the end after `do_shutdown()` and returns `None`. -/
theorem c2_counterexample :
    (check_shutdown ⟨5400, 32400, 1800, 10⟩ 5 (some 7200) 7300).1 ≠
      some 7200 := by decide

/-- C2 amended: when the shutdown action fires, `check_shutdown` returns
`None` (Inactive) together with exactly one `do_shutdown()` call, so a
subsequent evaluation starting from the returned state performs no shutdown
action (it can at most re-arm a fresh pending time). -/
theorem c2_amended_fire_returns_none (a : ShutArgs) (usage p now_full : Nat)
    (hu : usage ≤ a.idle_percent)
    (hin : insideWindow a (now_full % dayLen))
    (hp : p ≤ now_full) :
    check_shutdown a usage (some p) now_full = (none, 1) ∧
    ∀ usage2 now_full2,
      (check_shutdown a usage2
          (check_shutdown a usage (some p) now_full).1 now_full2).2 = 0 := by
  obtain ⟨h1, h2⟩ := hin
  have h : check_shutdown a usage (some p) now_full = (none, 1) := by
    unfold check_shutdown
    rw [if_neg (by omega), if_neg h1, if_neg h2]
    have hnp : ¬ now_full < p := by omega
    simp [hnp]
  refine ⟨h, fun usage2 now_full2 => ?_⟩
  rw [h]
  exact check_shutdown_none_no_action a usage2 now_full2

theorem c2_amended_fire_returns_none_witness :
    5 ≤ 10 ∧ insideWindow ⟨5400, 32400, 1800, 10⟩ (7300 % dayLen) ∧
      7200 ≤ 7300 ∧
      check_shutdown ⟨5400, 32400, 1800, 10⟩ 5 (some 7200) 7300 = (none, 1) ∧
      (check_shutdown ⟨5400, 32400, 1800, 10⟩ 5
        (check_shutdown ⟨5400, 32400, 1800, 10⟩ 5 (some 7200) 7300).1
        99999).2 = 0 :=
  ⟨by decide, by decide, by decide,
    (c2_amended_fire_returns_none ⟨5400, 32400, 1800, 10⟩ 5 7200 7300
      (by decide) (by decide) (by decide)).1,
    (c2_amended_fire_returns_none ⟨5400, 32400, 1800, 10⟩ 5 7200 7300
      (by decide) (by decide) (by decide)).2 5 99999⟩

/-- C4: for a non-wrapping window (start < end) and usage at or below the
threshold, `check_shutdown` takes its no-action `None` return exactly when
the time of day is not strictly between start and end; in particular
`now = start` and `now = end` count as outside. -/
theorem c4_nonwrapping_outside (a : ShutArgs) (usage now_full : Nat)
    (planned_shut : Option Nat)
    (hw : a.start < a.«end») (hu : usage ≤ a.idle_percent) :
    check_shutdown a usage planned_shut now_full = (none, 0) ↔
      ¬ (a.start < now_full % dayLen ∧ now_full % dayLen < a.«end») := by
  unfold check_shutdown
  rw [if_neg (by omega)]
  by_cases hin : a.start < now_full % dayLen ∧ now_full % dayLen < a.«end»
  · rw [if_neg (by tauto), if_neg (by omega)]
    cases planned_shut with
    | none => simp [hin]
    | some p =>
      by_cases hnp : now_full < p
      · simp [hnp, hin]
      · simp [hnp, hin]
  · rw [if_pos ⟨hw, hin⟩]
    simp [hin]

theorem c4_nonwrapping_outside_witness :
    5400 < 32400 ∧ 5 ≤ 10 ∧
      check_shutdown ⟨5400, 32400, 1800, 10⟩ 5 (some 99999) 5400 =
        (none, 0) :=
  ⟨by decide, by decide,
    (c4_nonwrapping_outside ⟨5400, 32400, 1800, 10⟩ 5 5400 (some 99999)
      (by decide) (by decide)).mpr (by decide)⟩

/-- C5: for a wrapping window (start > end) and usage at or below the
threshold, `check_shutdown` takes its no-action `None` return exactly when
`now < start` and `now > end` both hold; every other time of day, including
`now = start` and `now = end`, is treated as inside. -/
theorem c5_wrapping_outside (a : ShutArgs) (usage now_full : Nat)
    (planned_shut : Option Nat)
    (hw : a.start > a.«end») (hu : usage ≤ a.idle_percent) :
    check_shutdown a usage planned_shut now_full = (none, 0) ↔
      (now_full % dayLen < a.start ∧ now_full % dayLen > a.«end») := by
  unfold check_shutdown
  rw [if_neg (by omega), if_neg (by omega)]
  by_cases hout : now_full % dayLen < a.start ∧ now_full % dayLen > a.«end»
  · rw [if_pos ⟨hw, hout⟩]
    simp [hout]
  · rw [if_neg (by tauto)]
    cases planned_shut with
    | none => simp [hout]
    | some p =>
      by_cases hnp : now_full < p
      · simp [hnp, hout]
      · simp [hnp, hout]

theorem c5_wrapping_outside_witness :
    79200 > 21600 ∧ 5 ≤ 10 ∧
      check_shutdown ⟨79200, 21600, 1800, 10⟩ 5 (some 99999) 30000 =
        (none, 0) :=
  ⟨by decide, by decide,
    (c5_wrapping_outside ⟨79200, 21600, 1800, 10⟩ 5 30000 (some 99999)
      (by decide) (by decide)).mpr (by decide)⟩

/-- C6: with a pending shutdown whose planned time is still in the future,
usage at or below the threshold and the time of day inside the window,
`check_shutdown` returns the pending time unchanged with no action, and
feeding the returned state back with the same inputs gives the same result
again (idempotence). -/
theorem c6_pending_unchanged (a : ShutArgs) (usage p now_full : Nat)
    (hu : usage ≤ a.idle_percent)
    (hin : insideWindow a (now_full % dayLen))
    (hp : now_full < p) :
    check_shutdown a usage (some p) now_full = (some p, 0) ∧
    check_shutdown a usage
        (check_shutdown a usage (some p) now_full).1 now_full =
      (some p, 0) := by
  obtain ⟨h1, h2⟩ := hin
  have h : check_shutdown a usage (some p) now_full = (some p, 0) := by
    unfold check_shutdown
    rw [if_neg (by omega), if_neg h1, if_neg h2]
    simp [hp]
  exact ⟨h, by rw [h]; exact h⟩

theorem c6_pending_unchanged_witness :
    5 ≤ 10 ∧ insideWindow ⟨5400, 32400, 1800, 10⟩ (7300 % dayLen) ∧
      7300 < 9000 ∧
      check_shutdown ⟨5400, 32400, 1800, 10⟩ 5 (some 9000) 7300 =
        (some 9000, 0) :=
  ⟨by decide, by decide, by decide,
    (c6_pending_unchanged ⟨5400, 32400, 1800, 10⟩ 5 9000 7300
      (by decide) (by decide) (by decide)).1⟩

/-- C10: when the configured window has start = end, neither outside-window
branch of `check_shutdown` can apply, so every time of day is inside the
window: with usage at or below the threshold the call arms a fresh pending
time from Inactive, keeps a future pending time, and fires on a reached
pending time, at any hour. -/
theorem c10_equal_bounds_always_inside (a : ShutArgs) (usage now_full : Nat)
    (hse : a.start = a.«end») (hu : usage ≤ a.idle_percent) :
    insideWindow a (now_full % dayLen) ∧
    check_shutdown a usage none now_full =
      (some (now_full + a.idle_duration), 0) ∧
    (∀ p, now_full < p →
      check_shutdown a usage (some p) now_full = (some p, 0)) ∧
    (∀ p, p ≤ now_full →
      check_shutdown a usage (some p) now_full = (none, 1)) := by
  have hin : insideWindow a (now_full % dayLen) := by
    unfold insideWindow
    omega
  obtain ⟨h1, h2⟩ := hin
  refine ⟨⟨h1, h2⟩, ?_, fun p hp => ?_, fun p hp => ?_⟩
  · unfold check_shutdown
    rw [if_neg (by omega), if_neg h1, if_neg h2]
  · unfold check_shutdown
    rw [if_neg (by omega), if_neg h1, if_neg h2]
    simp [hp]
  · unfold check_shutdown
    rw [if_neg (by omega), if_neg h1, if_neg h2]
    have hnp : ¬ now_full < p := by omega
    simp [hnp]

theorem c10_equal_bounds_always_inside_witness :
    (5400 : Nat) = 5400 ∧ 5 ≤ 10 ∧
      insideWindow ⟨5400, 5400, 1800, 10⟩ (50000 % dayLen) ∧
      check_shutdown ⟨5400, 5400, 1800, 10⟩ 5 none 50000 =
        (some 51800, 0) :=
  ⟨rfl, by decide,
    (c10_equal_bounds_always_inside ⟨5400, 5400, 1800, 10⟩ 5 50000
      rfl (by decide)).1,
    (c10_equal_bounds_always_inside ⟨5400, 5400, 1800, 10⟩ 5 50000
      rfl (by decide)).2.1⟩

/-- Tests whether a character is an ASCII digit, as the regex class `\d`
does on a Python 2 byte string: code point between 48 and 57. -/
def isDig (c : Char) : Bool := 48 ≤ c.toNat && c.toNat ≤ 57

/-- Splits a character list into its maximal leading run of digits and the
rest, as a greedy digit group of `SHUT_ARGS_PATTERN` does.  (Every digit
group in the pattern is followed by a non-digit requirement, so greedy
maximal munch is equivalent to the regex engine's backtracking search.) -/
def munchDigits : List Char → List Char × List Char
  | [] => ([], [])
  | c :: cs =>
    if isDig c then (c :: (munchDigits cs).1, (munchDigits cs).2)
    else ([], c :: cs)

/-- Converts a digit string to the number it denotes, as Python's `int()`
does on a regex group of digits. -/
def digitsToNat (ds : List Char) : Nat :=
  ds.foldl (fun n c => 10 * n + (c.toNat - 48)) 0

/-- Matches one literal character, as `:`/`-`/`,` in `SHUT_ARGS_PATTERN`. -/
def expectChar (c : Char) : List Char → Option (List Char)
  | [] => none
  | x :: r => if x = c then some r else none

/-- Matches `\d{1,2}` (the hour and idle-percent groups of
`SHUT_ARGS_PATTERN`): one or two digits, returned as a number. -/
def take12Digits (cs : List Char) : Option (Nat × List Char) :=
  if 1 ≤ (munchDigits cs).1.length ∧ (munchDigits cs).1.length ≤ 2 then
    some (digitsToNat (munchDigits cs).1, (munchDigits cs).2)
  else none

/-- Matches `\d{2}` (the minute groups of `SHUT_ARGS_PATTERN`): exactly two
digits. -/
def take2Digits : List Char → Option (Nat × List Char)
  | a :: b :: r =>
    if isDig a ∧ isDig b then some (digitsToNat [a, b], r) else none
  | _ => none

/-- Matches `\d+` (the idle-duration group of `SHUT_ARGS_PATTERN`): one or
more digits. -/
def takeAllDigits (cs : List Char) : Option (Nat × List Char) :=
  if 1 ≤ (munchDigits cs).1.length then
    some (digitsToNat (munchDigits cs).1, (munchDigits cs).2)
  else none

/-- Matches the `$` anchor closing `SHUT_ARGS_PATTERN`: end of string, or a
single final newline (Python's `$` also matches just before a trailing
newline). -/
def matchEndDollar : List Char → Bool
  | [] => true
  | [c] => c = '\n'
  | _ => false

/-- Embedding of `re.match(SHUT_ARGS_PATTERN, s)` followed by the
`groupdict()` integer conversions (src/nvidia-mon.py lines 31-34 and
61-73): on success returns the six numeric groups
(start_h, start_min, end_h, end_min, idle_duration, idle_percent). -/
def matchShutArgs (cs : List Char) :
    Option (Nat × Nat × Nat × Nat × Nat × Nat) :=
  match take12Digits cs with
  | none => none
  | some (start_h, r0) =>
  match expectChar ':' r0 with
  | none => none
  | some r1 =>
  match take2Digits r1 with
  | none => none
  | some (start_min, r2) =>
  match expectChar '-' r2 with
  | none => none
  | some r3 =>
  match take12Digits r3 with
  | none => none
  | some (end_h, r4) =>
  match expectChar ':' r4 with
  | none => none
  | some r5 =>
  match take2Digits r5 with
  | none => none
  | some (end_min, r6) =>
  match expectChar ',' r6 with
  | none => none
  | some r7 =>
  match takeAllDigits r7 with
  | none => none
  | some (idle_duration, r8) =>
  match expectChar ',' r8 with
  | none => none
  | some r9 =>
  match take12Digits r9 with
  | none => none
  | some (idle_percent, r10) =>
  if matchEndDollar r10 then
    some (start_h, start_min, end_h, end_min, idle_duration, idle_percent)
  else none

/-- Embedding of `datetime.time(h, m)`: seconds since midnight, or `none`
when the constructor raises `ValueError` (hour outside 0-23 or minute
outside 0-59). -/
def mkTime (h m : Nat) : Option Nat :=
  if h ≤ 23 ∧ m ≤ 59 then some (3600 * h + 60 * m) else none

/-- The possible outcomes of the `--shutdown` handling in `parse_args`
(src/nvidia-mon.py lines 60-77): `code 2` is the early `return 2` on a
regex mismatch; `ok` is the normal `return args, shut_args` (with `none`
when the feature is disabled by an empty spec); `valueError` is an uncaught
`ValueError` escaping from `datetime.time`. -/
inductive ParseArgsResult where
  | code (n : Nat)
  | ok (shut_args : Option ShutArgs)
  | valueError
deriving DecidableEq

/-- Embedding of the `--shutdown` part of `parse_args` (src/nvidia-mon.py
lines 60-77), taking the value of `args.shutdown` as input: an empty string
disables the feature, a regex mismatch returns the number 2 (printed error
message elided), and a match builds the `shut_args` dict with `time` window
bounds and a `timedelta` of `60 * idle_duration` seconds. -/
def parse_args (shutdown : String) : ParseArgsResult :=
  if shutdown = "" then .ok none
  else
    match matchShutArgs shutdown.data with
    | none => .code 2
    | some (start_h, start_min, end_h, end_min, idle_duration, idle_percent) =>
      match mkTime start_h start_min, mkTime end_h end_min with
      | some start, some «end» =>
        .ok (some ⟨start, «end», 60 * idle_duration, idle_percent⟩)
      | _, _ => .valueError

/-- What the process observably does after `main` runs `parse_args`
(src/nvidia-mon.py lines 147-149): `uncaughtException` means an exception
escapes `main` (the interpreter prints a traceback and exits with status
1), `loopEntered` means execution reaches the monitor loop with the given
shutdown configuration. -/
inductive MainOutcome where
  | uncaughtException
  | loopEntered (shut_args : Option ShutArgs)
deriving DecidableEq

/-- Embedding of `main`'s startup line `args, shut_args = parse_args(args)`
(src/nvidia-mon.py line 149): when `parse_args` returns the int `2`,
unpacking it as a tuple raises `TypeError`; an escaped `ValueError` from
`datetime.time` propagates likewise; otherwise the loop is entered. -/
def main_startup (shutdown : String) : MainOutcome :=
  match parse_args shutdown with
  | .code _ => .uncaughtException
  | .valueError => .uncaughtException
  | .ok shut_args => .loopEntered shut_args

/-- The process exit status determined by a startup outcome: a Python
process dies with status 1 on an uncaught exception; `none` means the
process is still running (the loop was entered). -/
def exit_status : MainOutcome → Option Nat
  | .uncaughtException => some 1
  | .loopEntered _ => none

/-- A character accepted by `\d` has code point between 48 and 57. -/
theorem isDig_bounds {c : Char} (h : isDig c = true) :
    48 ≤ c.toNat ∧ c.toNat ≤ 57 := by
  simp only [isDig, Bool.and_eq_true, decide_eq_true_eq] at h
  exact h

/-- Every character in the digit run produced by `munchDigits` is a digit. -/
theorem munchDigits_digits (cs : List Char) :
    ∀ c ∈ (munchDigits cs).1, isDig c = true := by
  induction cs with
  | nil => simp [munchDigits]
  | cons a t ih =>
    intro c hc
    unfold munchDigits at hc
    by_cases h : isDig a = true
    · rw [if_pos h] at hc
      simp only [List.mem_cons] at hc
      rcases hc with rfl | hc
      · exact h
      · exact ih c hc
    · rw [if_neg h] at hc
      simp at hc

/-- A number written with at most two digits is at most 99. -/
theorem digitsToNat_le_99 {ds : List Char}
    (hd : ∀ c ∈ ds, isDig c = true) (hlen : ds.length ≤ 2) :
    digitsToNat ds ≤ 99 := by
  match ds with
  | [] => simp [digitsToNat]
  | [a] =>
    have h1 := isDig_bounds (hd a (by simp))
    simp only [digitsToNat, List.foldl]
    omega
  | [a, b] =>
    have h1 := isDig_bounds (hd a (by simp))
    have h2 := isDig_bounds (hd b (by simp))
    simp only [digitsToNat, List.foldl]
    omega
  | _ :: _ :: _ :: _ => simp at hlen

/-- The value of a `\d{1,2}` group is at most 99. -/
theorem take12Digits_le_99 {cs : List Char} {n : Nat} {r : List Char}
    (h : take12Digits cs = some (n, r)) : n ≤ 99 := by
  unfold take12Digits at h
  split at h
  · rename_i hc
    simp only [Option.some.injEq, Prod.mk.injEq] at h
    obtain ⟨h1, h2⟩ := h
    subst h1
    exact digitsToNat_le_99 (munchDigits_digits cs) hc.2
  · simp at h

/-- The idle-percent group of a successful `SHUT_ARGS_PATTERN` match is at
most 99, because the pattern allows it at most two digits. -/
theorem matchShutArgs_percent_le {cs : List Char}
    {sh sm eh em dur pct : Nat}
    (h : matchShutArgs cs = some (sh, sm, eh, em, dur, pct)) :
    pct ≤ 99 := by
  unfold matchShutArgs at h
  split at h
  · exact absurd h (by simp)
  split at h
  · exact absurd h (by simp)
  split at h
  · exact absurd h (by simp)
  split at h
  · exact absurd h (by simp)
  split at h
  · exact absurd h (by simp)
  split at h
  · exact absurd h (by simp)
  split at h
  · exact absurd h (by simp)
  split at h
  · exact absurd h (by simp)
  split at h
  · exact absurd h (by simp)
  split at h
  · exact absurd h (by simp)
  split at h
  · exact absurd h (by simp)
  split at h
  · simp only [Option.some.injEq, Prod.mk.injEq] at h
    obtain ⟨-, -, -, -, -, hp⟩ := h
    subst hp
    exact take12Digits_le_99 (by assumption)
  · exact absurd h (by simp)

/-- C7 (code bug): on the concrete malformed spec `garbage` the regex
mismatch makes `parse_args` return the int `2` (intended as an exit
status), but `main`'s tuple unpacking of that int raises `TypeError`, so
the polling loop is never entered and the process dies from the uncaught
exception with exit status 1, not with the documented clean exit status
2. -/
theorem c7_parse_failure_wrong_exit_status :
    parse_args "garbage" = ParseArgsResult.code 2 ∧
    main_startup "garbage" = MainOutcome.uncaughtException ∧
    exit_status (main_startup "garbage") = some 1 ∧
    exit_status (main_startup "garbage") ≠ some 2 := by decide

/-- C8 counterexample: the spec `1:30-9:00,0,10` is accepted by
configuration parsing (the `\d+` idle-duration group matches `0`) and
yields a window whose idle duration is 0, violating the claimed invariant
`idleDuration > 0`. -/
theorem c8_counterexample :
    parse_args "1:30-9:00,0,10" =
      ParseArgsResult.ok (some ⟨5400, 32400, 0, 10⟩) ∧
    ¬ 0 < (ShutArgs.mk 5400 32400 0 10).idle_duration := by decide

/-- C8 amended: every accepted `--shutdown` specification yields a window
with idle threshold in [0,100] (the two-digit group even bounds it by 99),
so a percent outside [0,100] is always rejected; but positivity of the idle
duration is NOT enforced: a duration of 0 minutes passes the `\d+` group
and is accepted. -/
theorem c8_amended_percent_invariant (s : String) (w : ShutArgs)
    (h : parse_args s = ParseArgsResult.ok (some w)) :
    w.idle_percent ≤ 100 := by
  unfold parse_args at h
  split at h
  · simp at h
  · split at h
    · simp at h
    · rename_i groups heq
      split at h
      · rename_i st en hst hen
        simp only [ParseArgsResult.ok.injEq, Option.some.injEq] at h
        subst h
        have hp := matchShutArgs_percent_le heq
        exact Nat.le_trans hp (by omega)
      · simp at h

theorem c8_amended_percent_invariant_witness :
    parse_args "1:30-9:00,30,10" =
      ParseArgsResult.ok (some ⟨5400, 32400, 1800, 10⟩) ∧
    (ShutArgs.mk 5400 32400 1800 10).idle_percent ≤ 100 :=
  ⟨by decide,
    c8_amended_percent_invariant "1:30-9:00,30,10" ⟨5400, 32400, 1800, 10⟩
      (by decide)⟩

/-- What one scheduled iteration of `main`'s `while True` loop
(src/nvidia-mon.py lines 165-173) does: `tick` is a full successful
iteration, `raiseDeviceNotFound` an exception from
`nvmlDeviceGetHandleByIndex`, `raiseProviderError` an exception from the
`get_data` query, `cancel` an external interrupt delivered during the
iteration or the sleep. -/
inductive TickEvent where
  | tick
  | raiseDeviceNotFound
  | raiseProviderError
  | cancel
deriving DecidableEq

/-- The MetricsProvider lifecycle events `main` can perform, in the order
they appear in the source: `nvmlInit()` (line 162), per-tick
`nvmlDeviceGetHandleByIndex` (line 166) and `get_data` query (line 167),
and `nvmlShutdown()` in the `finally` block (line 178).  Per-tick
non-provider work (the policy call, the log line, the sleep) is not part
of this alphabet. -/
inductive Ev where
  | nvmlInitEv
  | getHandleEv
  | queryEv
  | nvmlShutdownEv
deriving DecidableEq

/-- How the `try` block of `main` ends: a fatal device-lookup error, any
other fatal provider error, or cancellation (e.g. `KeyboardInterrupt`);
the `while True` loop has no normal exit. -/
inductive ExitKind where
  | deviceNotFound
  | providerError
  | cancelled
deriving DecidableEq

/-- How often an event occurs in a trace. -/
def countEv (e : Ev) : List Ev → Nat
  | [] => 0
  | x :: r => if x = e then countEv e r + 1 else countEv e r

/-- The provider events emitted by the `while True` loop of `main`
(src/nvidia-mon.py lines 165-173) when the scheduled iterations are
`script`, together with how the `try` block ends (`none` while the prefix
of iterations examined so far has not ended it). -/
def loop_body : List TickEvent → List Ev × Option ExitKind
  | [] => ([], none)
  | TickEvent.tick :: rest =>
    (Ev.getHandleEv :: Ev.queryEv :: (loop_body rest).1, (loop_body rest).2)
  | TickEvent.raiseDeviceNotFound :: _ =>
    ([Ev.getHandleEv], some ExitKind.deviceNotFound)
  | TickEvent.raiseProviderError :: _ =>
    ([Ev.getHandleEv, Ev.queryEv], some ExitKind.providerError)
  | TickEvent.cancel :: _ => ([], some ExitKind.cancelled)

/-- Embedding of the `try`/`except`/`finally` of `main` (src/nvidia-mon.py
lines 160-178): `nvmlInit()` runs first, the loop runs until an exception
or interrupt ends it, and the `finally` block appends `nvmlShutdown()`
before the exception propagates (the bare `except Exception: raise` merely
re-raises).  While no exception has occurred the loop is still running and
no teardown has happened yet. -/
def main_run (script : List TickEvent) : List Ev × Option ExitKind :=
  match loop_body script with
  | (evs, some k) => (Ev.nvmlInitEv :: evs ++ [Ev.nvmlShutdownEv], some k)
  | (evs, none) => (Ev.nvmlInitEv :: evs, none)

/-- The loop body itself never initializes or tears down the provider
session. -/
theorem loop_body_no_lifecycle (script : List TickEvent) :
    countEv Ev.nvmlInitEv (loop_body script).1 = 0 ∧
    countEv Ev.nvmlShutdownEv (loop_body script).1 = 0 := by
  induction script with
  | nil => exact ⟨rfl, rfl⟩
  | cons a rest ih =>
    cases a with
    | tick =>
      simp only [loop_body, countEv]
      exact ⟨by simp [ih.1], by simp [ih.2]⟩
    | raiseDeviceNotFound => exact ⟨rfl, rfl⟩
    | raiseProviderError => exact ⟨rfl, rfl⟩
    | cancel => exact ⟨rfl, rfl⟩

/-- C9: on every exit path of the monitor loop — fatal error from handle
acquisition, fatal error from the query, or cancellation — the trace of
provider events is `nvmlInit`, then the loop's events with no further
lifecycle event among them, then exactly one `nvmlShutdown` at the very
end, before the error propagates. -/
theorem c9_teardown_every_exit_path (script : List TickEvent) (k : ExitKind)
    (h : (main_run script).2 = some k) :
    ∃ mid, (main_run script).1 =
        Ev.nvmlInitEv :: mid ++ [Ev.nvmlShutdownEv] ∧
      countEv Ev.nvmlInitEv mid = 0 ∧
      countEv Ev.nvmlShutdownEv mid = 0 ∧
      countEv Ev.nvmlShutdownEv (main_run script).1 = 1 := by
  unfold main_run at h ⊢
  rcases hlb : loop_body script with ⟨evs, out⟩
  cases out with
  | none =>
    rw [hlb] at h
    simp at h
  | some k2 =>
    refine ⟨evs, rfl, ?_, ?_, ?_⟩
    · have := (loop_body_no_lifecycle script).1
      rw [hlb] at this
      exact this
    · have := (loop_body_no_lifecycle script).2
      rw [hlb] at this
      exact this
    · have h0 : countEv Ev.nvmlShutdownEv evs = 0 := by
        have := (loop_body_no_lifecycle script).2
        rw [hlb] at this
        exact this
      clear hlb h
      induction evs with
      | nil => rfl
      | cons x r ih =>
        simp only [countEv] at h0 ⊢
        by_cases hx : x = Ev.nvmlShutdownEv
        · simp [hx] at h0
        · simp only [List.cons_append, countEv, if_neg hx]
          exact ih (by simpa [if_neg hx] using h0)

theorem c9_teardown_every_exit_path_witness :
    (main_run [TickEvent.tick, TickEvent.raiseProviderError]).2 =
      some ExitKind.providerError ∧
    (∃ mid, (main_run [TickEvent.tick, TickEvent.raiseProviderError]).1 =
        Ev.nvmlInitEv :: mid ++ [Ev.nvmlShutdownEv] ∧
      countEv Ev.nvmlInitEv mid = 0 ∧
      countEv Ev.nvmlShutdownEv mid = 0 ∧
      countEv Ev.nvmlShutdownEv
        (main_run [TickEvent.tick, TickEvent.raiseProviderError]).1 = 1) :=
  ⟨by decide,
    c9_teardown_every_exit_path [TickEvent.tick, TickEvent.raiseProviderError]
      ExitKind.providerError (by decide)⟩
